import Mathlib

/-!
Verification of the Trust Aggregation & Escalation Engine of the
EE782 AI Guard Agent repository.

Shallow embedding of:
* the sliding-window aggregation logic of
  `pyfiles/CV/recognizeFaces.py` (`FacialRecognizer._recognition_loop`,
  lines 112-146, together with `__init__`, `start_recognition` and
  `stop_recognition`);
* the escalation controller of `pyfiles/NLP/gemma.py`
  (`Gemma.__init__`, `set_verification_status`, `_get_unverified_prompt`,
  `_get_verified_prompt`, `chat`).

Timestamps (Python `time.time()` floats) are embedded as natural numbers;
the only operations the code performs on them are subtraction and a
comparison against the window length, which the embedding mirrors with
truncated `Nat` subtraction (`now - ts > W`).  The float comparison
`(trusted_count / total_count) >= 0.5` is embedded as the exact rational
test `2 * trusted_count >= total_count`: both sides of the Python
comparison are exactly representable (0.5 is a dyadic rational and the
rounding error of the quotient is far below `1/(2*total_count)` for any
feasible window size), so the float test and the exact test agree.
-/

namespace GuardAgent

/-- The per-frame classification label produced by `process_frame`
(`recognizeFaces.py` lines 93-98).  The Python code uses the strings
`"Trusted"`, `"Untrusted"` and `"No Face Detected"`; the embedding uses an
enumeration, with `NoSignal` standing for `"No Face Detected"`. -/
inductive Label
  | Trusted
  | Untrusted
  | NoSignal
  deriving DecidableEq, Repr

/-- One entry of `self.detection_history`: the pair
`(current_time, status)` appended at `recognizeFaces.py` line 125. -/
structure Obs where
  ts : Nat
  label : Label
  deriving DecidableEq, Repr

/-- The eviction predicate of the `while` loop at `recognizeFaces.py`
line 128: `current_time - self.detection_history[0][0] > self.state_window_seconds`. -/
def staleAt (now W : Nat) (o : Obs) : Bool :=
  decide (now - o.ts > W)

/-- Step 2 of the ingest cycle (`recognizeFaces.py` lines 128-129):
pop entries from the front of the deque while the front entry is stale.
`List.dropWhile` is exactly the repeated `popleft` of the source. -/
def evictStale (now W : Nat) (h : List Obs) : List Obs :=
  h.dropWhile (staleAt now W)

/-- `trusted_count` of `recognizeFaces.py` line 134:
`sum(1 for _, s in self.detection_history if s == "Trusted")`.
`NoSignal` and `Untrusted` entries are not counted. -/
def trustedCount (h : List Obs) : Nat :=
  (h.filter (fun o => decide (o.label = Label.Trusted))).length

/-- Steps 3-5 of the ingest cycle (`recognizeFaces.py` lines 132-145):
if the history is empty the verdict is `false`; otherwise the verdict is
`trusted_count / total_count >= 0.5`, embedded exactly as
`2 * trusted_count >= total_count`. -/
def verdictOf (h : List Obs) : Bool :=
  if h.isEmpty then false
  else decide (2 * trustedCount h ≥ h.length)

/-- The aggregator state: the deque `self.detection_history` and the
shared boolean `self.is_verified` of `FacialRecognizer`. -/
structure AggState where
  history : List Obs
  is_verified : Bool
  deriving DecidableEq, Repr

/-- `FacialRecognizer.__init__` (`recognizeFaces.py` lines 26-31):
`self.is_verified = False`, `self.detection_history = collections.deque()`. -/
def aggInit : AggState := ⟨[], false⟩

/-- `self.state_window_seconds = 3` (`recognizeFaces.py` line 28). -/
def state_window_seconds : Nat := 3

/-- One full ingest cycle of the aggregate-state block
(`recognizeFaces.py` lines 122-146): append the new observation, evict
stale entries from the front, recompute `self.is_verified` from the
surviving window. -/
def ingestStep (W : Nat) (s : AggState) (now : Nat) (l : Label) : AggState :=
  let h := evictStale now W (s.history ++ [⟨now, l⟩])
  ⟨h, verdictOf h⟩

/-- A sequence of ingest cycles, folded left in arrival order. -/
def ingestMany (W : Nat) (s : AggState) (obs : List (Nat × Label)) : AggState :=
  obs.foldl (fun st o => ingestStep W st o.fst o.snd) s

/-- Reading the verdict (`self.is_verified`) at any moment returns the
stored field; no recomputation happens on a read. -/
def current_verdict (s : AggState) : Bool :=
  s.is_verified

/-- `self.is_verified = False` at `FacialRecognizer.__init__`
(`recognizeFaces.py` line 26). -/
def facialRecognizerVerifiedInit : Bool := false

/-! ### Escalation controller (`pyfiles/NLP/gemma.py`) -/

/-- The controller state: `self.is_verified` and `self.escalation_level`
of `Gemma`. -/
structure GemmaState where
  is_verified : Bool
  escalation_level : Nat
  deriving DecidableEq, Repr

/-- `Gemma.__init__` (`gemma.py` lines 24-25): `self.is_verified = True`
(the adjacent comment reads "Start as unverified by default"),
`self.escalation_level = 0`. -/
def gemmaInit : GemmaState := ⟨true, 0⟩

/-- `Gemma.set_verification_status` (`gemma.py` lines 27-37): stores the
new status and resets the escalation level to 0 whenever the status is
`true`. -/
def set_verification_status (s : GemmaState) (status : Bool) : GemmaState :=
  if status then ⟨status, 0⟩ else ⟨status, s.escalation_level⟩

/-- The policy tier selected by `_get_unverified_prompt` /
`_get_verified_prompt`.  `tier1` is the identity inquiry (level 1),
`tier2` the order to leave (level 2), `tier3plus` the final trespass
warning (the `else` branch, every level outside 1 and 2), and
`verifiedConcierge` the verified-user concierge prompt. -/
inductive PromptTier
  | tier1
  | tier2
  | tier3plus
  | verifiedConcierge
  deriving DecidableEq, Repr

/-- The branch structure of `_get_unverified_prompt` (`gemma.py`
lines 45-70): level 1 and level 2 each select their own prompt, every
other level falls into the final-warning `else` branch. -/
def selectUnverifiedTier (level : Nat) : PromptTier :=
  if level = 1 then PromptTier.tier1
  else if level = 2 then PromptTier.tier2
  else PromptTier.tier3plus

/-- Python `str.strip()`: remove leading and trailing whitespace.  Used
both for the blank-input test `not user_input or not user_input.strip()`
(`gemma.py` line 88 — the test is equivalent to the stripped string being
empty, since the empty string also strips to empty) and for
`response_text.strip()` (line 117). -/
def strip (s : String) : String :=
  String.mk (((s.data.dropWhile Char.isWhitespace).reverse.dropWhile
    Char.isWhitespace).reverse)

/-- The value returned by `Gemma.chat`: either the fixed string returned
at line 89 for blank input, or the (stripped) output of the external
response generator for the selected prompt tier.  The generator is an
oracle `PromptTier → Option String`; `none` models the generator raising
an exception, which `chat` does not catch and therefore propagates. -/
inductive ChatResult
  | fixedReply (text : String)
  | generated (tier : PromptTier) (reply : Option String)
  deriving DecidableEq, Repr

/-- `Gemma.chat` (`gemma.py` lines 84-117).  Blank input (`not user_input
or not user_input.strip()`) returns a fixed string and touches no state.
Otherwise, if unverified, the escalation level is incremented first and
the prompt tier is selected from the incremented level; if verified, the
level is set to 0 and the concierge prompt is used.  The generated text
is stripped (`response_text.strip()`, line 117); a generator exception
propagates past `chat` because the source has no `try`/`except`. -/
def chat (s : GemmaState) (user_input : String) (gen : PromptTier → Option String) :
    GemmaState × ChatResult :=
  if strip user_input = "" then
    (s, ChatResult.fixedReply "Please provide a valid input.")
  else if s.is_verified = false then
    let s2 : GemmaState := ⟨s.is_verified, s.escalation_level + 1⟩
    let tier := selectUnverifiedTier s2.escalation_level
    (s2, ChatResult.generated tier ((gen tier).map strip))
  else
    let s2 : GemmaState := ⟨s.is_verified, 0⟩
    (s2, ChatResult.generated PromptTier.verifiedConcierge
      ((gen PromptTier.verifiedConcierge).map strip))

/-- A sequence of chat turns, keeping only the evolving state. -/
def chatTurns (s : GemmaState) (inputs : List String)
    (gen : PromptTier → Option String) : GemmaState :=
  inputs.foldl (fun st i => (chat st i gen).fst) s

/-- A generator that always succeeds with the reply "ok". -/
def okGen : PromptTier → Option String := fun _ => some "ok"

/-- A generator that always raises (models `model.generate` erroring). -/
def errGen : PromptTier → Option String := fun _ => none

/-! ### Threading control of `FacialRecognizer` -/

/-- The threading-control state of `FacialRecognizer`: the `_running`
flag, whether `_recognition_thread` has been created (`none` embeds
Python `None`), and how many times the camera resource has been released
by an exiting recognition loop. -/
structure RecState where
  running : Bool
  thread : Option Unit
  cameraReleases : Nat
  deriving DecidableEq, Repr

/-- `FacialRecognizer.__init__` (`recognizeFaces.py` lines 34-35):
`self._running = False`, `self._recognition_thread = None`; no camera
released yet. -/
def recInit : RecState := ⟨false, none, 0⟩

/-- `start_recognition` (`recognizeFaces.py` lines 173-192): returns
early when the trusted-faces directory has no usable images or when the
loop is already running; otherwise sets `_running` and spawns the
recognition thread. -/
def start_recognition (hasTrustedImages : Bool) (s : RecState) : RecState :=
  if hasTrustedImages = false then s
  else if s.running then s
  else ⟨true, some (), s.cameraReleases⟩

/-- `stop_recognition` (`recognizeFaces.py` lines 194-204): when
`_running` is false it prints and returns without touching any state;
otherwise it clears `_running` and joins the thread.  The join returns
only after the loop body observes `_running = False`, exits, and calls
`video_capture.release()` exactly once (line 168), which the embedding
records as one increment of `cameraReleases`.  Joining a `None` thread
would raise `AttributeError`, embedded as `none`. -/
def stop_recognition (s : RecState) : Option RecState :=
  if s.running = false then some s
  else
    match s.thread with
    | some _ => some ⟨false, s.thread, s.cameraReleases + 1⟩
    | none => none

/-! ### Helper lemmas about eviction -/

/-- Appending an element that is not stale keeps the evicted window
non-empty: `dropWhile` always retains the last element when the predicate
fails on it. -/
lemma dropWhile_append_singleton_ne_nil {α : Type} (p : α → Bool) (l : List α)
    (x : α) (hx : p x = false) : (l ++ [x]).dropWhile p ≠ [] := by
  induction l with
  | nil => simp [List.dropWhile, hx]
  | cons a t ih =>
    by_cases ha : p a
    · simpa [List.dropWhile_cons, ha] using ih
    · simp [List.dropWhile_cons, ha]

/-- Dropping from a concatenation whose first part is entirely stale
reduces to dropping from the second part. -/
lemma dropWhile_append_of_all {α : Type} (p : α → Bool) (l r : List α)
    (h : ∀ a ∈ l, p a = true) : (l ++ r).dropWhile p = r.dropWhile p := by
  induction l with
  | nil => simp
  | cons a t ih =>
    have ha : p a = true := h a (by simp)
    have ht : ∀ b ∈ t, p b = true := fun b hb => h b (by simp [hb])
    simp [List.dropWhile_cons, ha, ih ht]

/-- On a timestamp-sorted history, everything surviving `evictStale` is
within the window: the first survivor already satisfies the bound and
later entries are at least as recent. -/
lemma mem_evictStale_fresh (now W : Nat) :
    ∀ l : List Obs, l.Pairwise (fun a b => a.ts ≤ b.ts) →
      ∀ o ∈ evictStale now W l, now - o.ts ≤ W := by
  intro l
  induction l with
  | nil => intro _ o ho; simp [evictStale] at ho
  | cons a t ih =>
    intro hp o ho
    rw [List.pairwise_cons] at hp
    by_cases ha : now - a.ts > W
    · have ha' : staleAt now W a = true := by simp [staleAt, ha]
      rw [evictStale, List.dropWhile_cons, if_pos ha'] at ho
      exact ih hp.2 o ho
    · have ha' : staleAt now W a = false := by simp [staleAt]; omega
      rw [evictStale, List.dropWhile_cons, if_neg (by simp [ha'])] at ho
      rcases List.mem_cons.mp ho with rfl | hot
      · omega
      · have hao : a.ts ≤ o.ts := hp.1 o hot
        omega

/-- The stored verdict of a non-empty window agrees with the exact
rational majority test of the specification: `trusted_fraction >= 0.5`. -/
lemma verdict_iff_fraction (h : List Obs) (hne : h ≠ []) :
    verdictOf h = true ↔
      ((trustedCount h : ℚ) / (h.length : ℚ) ≥ 1 / 2) := by
  have hn : 0 < h.length := List.length_pos.mpr hne
  have hQ : (0 : ℚ) < (h.length : ℚ) := by exact_mod_cast hn
  have hie : h.isEmpty = false := by
    cases h with
    | nil => exact absurd rfl hne
    | cons a t => rfl
  rw [verdictOf, hie, if_neg (by simp), decide_eq_true_eq]
  constructor
  · intro hle
    rw [ge_iff_le, div_le_div_iff₀ (by norm_num) hQ, one_mul, mul_comm]
    exact_mod_cast hle
  · intro hge
    rw [ge_iff_le, div_le_div_iff₀ (by norm_num) hQ, one_mul, mul_comm] at hge
    exact_mod_cast hge

/-! ### Claim theorems -/

/-- C1: after every ingestion the window is non-empty, and the stored
verdict equals the windowed majority vote: it is `true` exactly when the
fraction of `Trusted` observations over all observations in the window
(with `NoSignal` in the denominator only) is at least `1/2`; in
particular a fraction of exactly `1/2` yields `true`. -/
theorem C1_verdict_is_windowed_majority (W : Nat) (s : AggState) (now : Nat)
    (l : Label) :
    (ingestStep W s now l).history ≠ [] ∧
    ((ingestStep W s now l).is_verified = true ↔
      ((trustedCount (ingestStep W s now l).history : ℚ) /
        ((ingestStep W s now l).history.length : ℚ) ≥ 1 / 2)) := by
  have hfresh : staleAt now W ⟨now, l⟩ = false := by
    simp [staleAt]
  have hne : (ingestStep W s now l).history ≠ [] := by
    simpa [ingestStep, evictStale] using
      dropWhile_append_singleton_ne_nil (staleAt now W) s.history ⟨now, l⟩ hfresh
  refine ⟨hne, ?_⟩
  have hv : (ingestStep W s now l).is_verified =
      verdictOf (ingestStep W s now l).history := by
    simp [ingestStep]
  rw [hv]
  exact verdict_iff_fraction _ hne

/-- C2 counterexample: starting unverified at level 0, four non-empty
chat turns drive `escalation_level` to 4, strictly above the 3 policy
tiers defined by `_get_unverified_prompt` — the counter does not saturate
at the highest tier, refuting the claim that it never exceeds the
configured tier count. -/
theorem C2_counterexample :
    3 < (chatTurns ⟨false, 0⟩ ["a", "b", "c", "d"] okGen).escalation_level := by
  decide

/-- C2 amended: while unverified, each non-empty chat turn increments the
escalation level by exactly 1 and the level is monotonically
non-decreasing, but the counter itself is unbounded; what saturates is
the selected policy: every level of 3 or more reuses the final-warning
tier (`tier3plus`). -/
theorem C2_amended_escalation_step (s : GemmaState) (input : String)
    (gen : PromptTier → Option String) (hv : s.is_verified = false)
    (hne : strip input ≠ "") :
    (chat s input gen).fst.escalation_level = s.escalation_level + 1 ∧
    s.escalation_level ≤ (chat s input gen).fst.escalation_level ∧
    (2 ≤ s.escalation_level →
      (chat s input gen).snd = ChatResult.generated PromptTier.tier3plus
        ((gen PromptTier.tier3plus).map strip)) := by
  refine ⟨?_, ?_, ?_⟩
  · simp [chat, hne, hv]
  · simp [chat, hne, hv]
  · intro h2
    have h1 : s.escalation_level + 1 ≠ 1 := by omega
    have h2' : s.escalation_level + 1 ≠ 2 := by omega
    simp [chat, hne, hv, selectUnverifiedTier, h1, h2']

/-- C2 witness: the amended step theorem applied at level 5 with a
non-empty utterance and a concrete generator. -/
theorem C2_amended_escalation_step_witness :
    (chat ⟨false, 5⟩ "x" okGen).fst.escalation_level = 5 + 1 ∧
    5 ≤ (chat ⟨false, 5⟩ "x" okGen).fst.escalation_level ∧
    (chat ⟨false, 5⟩ "x" okGen).snd = ChatResult.generated PromptTier.tier3plus
      ((okGen PromptTier.tier3plus).map strip) := by
  have h := C2_amended_escalation_step ⟨false, 5⟩ "x" okGen rfl (by decide)
  exact ⟨h.1, h.2.1, h.2.2 (by norm_num)⟩

/-- The concrete run of the C3 scenario: `W = 3`, four `Trusted`
observations within a 1-second span. -/
def c3SilenceState : AggState :=
  ingestMany state_window_seconds aggInit
    [(0, Label.Trusted), (0, Label.Trusted), (1, Label.Trusted), (1, Label.Trusted)]

/-- C3 counterexample: after the four `Trusted` ingests of the scenario
the verdict is `true`.  The window and the stored verdict are mutated
only inside the ingest cycle (`recognizeFaces.py` lines 122-146); when
the clock advances 4 seconds with no new observation ingested, no code
runs, so the state is still `c3SilenceState`: reading the verdict returns
`true` and the window still holds all 4 entries — it did not become empty
and the verdict did not become `false`, refuting the claim. -/
theorem C3_counterexample :
    current_verdict c3SilenceState = true ∧ c3SilenceState.history ≠ [] ∧
    c3SilenceState.history.length = 4 := by
  decide

/-- C3 amended: the window and verdict change only on ingestion; after
more than `W` seconds of silence the stored verdict is retained, and the
first subsequent ingestion evicts every stale entry, so when its label is
not `Trusted` the window becomes the singleton holding it and the verdict
becomes `false`. -/
theorem C3_amended_silence_then_ingest (W : Nat) (s : AggState) (now : Nat)
    (l : Label) (hstale : ∀ o ∈ s.history, now - o.ts > W)
    (hl : l ≠ Label.Trusted) :
    (ingestStep W s now l).history = [⟨now, l⟩] ∧
    (ingestStep W s now l).is_verified = false := by
  have hall : ∀ o ∈ s.history, staleAt now W o = true := by
    intro o ho
    simp [staleAt]
    exact hstale o ho
  have h1 : evictStale now W (s.history ++ [⟨now, l⟩]) = [⟨now, l⟩] := by
    rw [evictStale, dropWhile_append_of_all _ _ _ hall]
    simp [List.dropWhile, staleAt]
  refine ⟨by simp [ingestStep, h1], ?_⟩
  simp [ingestStep, h1, verdictOf, trustedCount, hl]

/-- C3 witness: a state verified seconds ago, whose entries are all more
than `W = 3` seconds old at `now = 5`; ingesting a `NoSignal` observation
flushes them and flips the verdict to `false`. -/
theorem C3_amended_silence_then_ingest_witness :
    (∀ o ∈ (AggState.mk [⟨0, Label.Trusted⟩, ⟨1, Label.Trusted⟩] true).history,
      5 - o.ts > 3) ∧
    (ingestStep 3 (AggState.mk [⟨0, Label.Trusted⟩, ⟨1, Label.Trusted⟩] true)
      5 Label.NoSignal).history = [⟨5, Label.NoSignal⟩] ∧
    (ingestStep 3 (AggState.mk [⟨0, Label.Trusted⟩, ⟨1, Label.Trusted⟩] true)
      5 Label.NoSignal).is_verified = false := by
  have h := C3_amended_silence_then_ingest 3
    (AggState.mk [⟨0, Label.Trusted⟩, ⟨1, Label.Trusted⟩] true) 5 Label.NoSignal
    (by decide) (by decide)
  exact ⟨by decide, h.1, h.2⟩

/-- C4: setting the verification status to `true` resets the escalation
level to 0 for any prior level `L > 0`, and every subsequent non-empty
chat turn while verified selects the verified/concierge policy with the
level remaining 0. -/
theorem C4_verify_resets_level (s : GemmaState) (input : String)
    (gen : PromptTier → Option String) (_hL : 0 < s.escalation_level)
    (hne : strip input ≠ "") :
    (set_verification_status s true).escalation_level = 0 ∧
    (chat (set_verification_status s true) input gen).fst.escalation_level = 0 ∧
    (chat (set_verification_status s true) input gen).fst.is_verified = true ∧
    (chat (set_verification_status s true) input gen).snd =
      ChatResult.generated PromptTier.verifiedConcierge
        ((gen PromptTier.verifiedConcierge).map strip) := by
  have hs : set_verification_status s true = ⟨true, 0⟩ := by
    simp [set_verification_status]
  rw [hs]
  refine ⟨rfl, ?_, ?_, ?_⟩ <;> simp [chat, hne]

/-- C4 witness: prior level 7, verification flip, then the chat turn
"hi" with a concrete generator. -/
theorem C4_verify_resets_level_witness :
    (set_verification_status ⟨false, 7⟩ true).escalation_level = 0 ∧
    (chat (set_verification_status ⟨false, 7⟩ true) "hi" okGen).fst.escalation_level = 0 ∧
    (chat (set_verification_status ⟨false, 7⟩ true) "hi" okGen).fst.is_verified = true ∧
    (chat (set_verification_status ⟨false, 7⟩ true) "hi" okGen).snd =
      ChatResult.generated PromptTier.verifiedConcierge
        ((okGen PromptTier.verifiedConcierge).map strip) :=
  C4_verify_resets_level ⟨false, 7⟩ "hi" okGen (by norm_num) (by decide)

/-- C5: the verdict step maps an empty post-eviction window to `false`
(fail-closed), and eviction of a history whose entries are all stale
terminates with the empty window rather than an error (`evictStale` is a
total function; its value there is `[]`). -/
theorem C5_empty_window_fail_closed (now W : Nat) (h : List Obs) :
    (evictStale now W h = [] → verdictOf (evictStale now W h) = false) ∧
    ((∀ o ∈ h, now - o.ts > W) → evictStale now W h = []) := by
  constructor
  · intro he
    rw [he]
    rfl
  · intro hall
    rw [evictStale, List.dropWhile_eq_nil_iff]
    intro o ho
    simp [staleAt]
    exact hall o ho

/-- A concrete fully-stale history for the C5 witness. -/
def c5Stale : List Obs := [⟨0, Label.Trusted⟩, ⟨2, Label.Untrusted⟩]

/-- C5 witness: at `now = 10`, `W = 3`, both entries of `c5Stale` are
stale; eviction produces the empty window and the verdict is `false`. -/
theorem C5_empty_window_fail_closed_witness :
    evictStale 10 3 c5Stale = [] ∧ verdictOf (evictStale 10 3 c5Stale) = false := by
  have h := C5_empty_window_fail_closed 10 3 c5Stale
  have he : evictStale 10 3 c5Stale = [] := h.2 (by decide)
  exact ⟨he, h.1 he⟩

/-- C6: the two constructors diverge.  `FacialRecognizer.__init__`
initializes its verification flag to `false` as the claim requires, but
`Gemma.__init__` initializes `self.is_verified = True` — even though the
comment beside it says the instance starts unverified — so a consumer
reading the verification state of a freshly constructed `Gemma` sees
`true`, not `false`. -/
theorem C6_construction_divergence :
    facialRecognizerVerifiedInit = false ∧ gemmaInit.is_verified = true :=
  ⟨rfl, rfl⟩

/-- C7 counterexample: while unverified at level 0, a chat turn whose
generator raises propagates the exception to the caller
(`ChatResult.generated _ none`), and a generator returning the empty
string yields the empty string — in neither case does the caller receive
a fallback apology string. -/
theorem C7_counterexample :
    (chat ⟨false, 0⟩ "hello" errGen).snd =
      ChatResult.generated PromptTier.tier1 none ∧
    (chat ⟨false, 0⟩ "hello" (fun _ => some "")).snd =
      ChatResult.generated PromptTier.tier1 (some "") := by
  constructor <;> decide

/-- C7 amended: `chat` has no handler for generator failure — an error
propagates to the caller and an empty reply is returned as the empty
string, with no fallback apology — but the escalation-level increment is
decoupled from generation: the resulting state is identical for every
generator outcome and the level has been incremented by exactly 1. -/
theorem C7_amended_increment_decoupled (s : GemmaState) (input : String)
    (gen gen2 : PromptTier → Option String) (hv : s.is_verified = false)
    (hne : strip input ≠ "") :
    (chat s input gen).fst = (chat s input gen2).fst ∧
    (chat s input gen).fst.escalation_level = s.escalation_level + 1 := by
  constructor <;> simp [chat, hne, hv]

/-- C7 witness: the decoupling theorem applied at level 2 with the
always-failing generator against the always-succeeding one. -/
theorem C7_amended_increment_decoupled_witness :
    (chat ⟨false, 2⟩ "hello" errGen).fst = (chat ⟨false, 2⟩ "hello" okGen).fst ∧
    (chat ⟨false, 2⟩ "hello" errGen).fst.escalation_level = 2 + 1 :=
  C7_amended_increment_decoupled ⟨false, 2⟩ "hello" errGen okGen rfl (by decide)

/-- C8: when the stored history is timestamp-sorted and entirely in the
past — the precondition the source documents for the classifier feed —
every observation surviving an ingest cycle satisfies
`now - o.ts <= W`, and the evicted observations form a prefix of the
appended history, each of which was stale. -/
theorem C8_window_freshness_invariant (W : Nat) (s : AggState) (now : Nat)
    (l : Label) (hsort : s.history.Pairwise (fun a b => a.ts ≤ b.ts))
    (hpast : ∀ o ∈ s.history, o.ts ≤ now) :
    (∀ o ∈ (ingestStep W s now l).history, now - o.ts ≤ W) ∧
    (∃ dropped, s.history ++ [⟨now, l⟩] = dropped ++ (ingestStep W s now l).history ∧
      ∀ o ∈ dropped, now - o.ts > W) := by
  have hsort2 : List.Pairwise (fun a b : Obs => a.ts ≤ b.ts)
      (s.history ++ [⟨now, l⟩]) := by
    rw [List.pairwise_append]
    refine ⟨hsort, List.pairwise_singleton _ _, ?_⟩
    intro a ha b hb
    have hb2 : b = ⟨now, l⟩ := by simpa using hb
    rw [hb2]
    exact hpast a ha
  have hist : (ingestStep W s now l).history =
      evictStale now W (s.history ++ [⟨now, l⟩]) := by
    simp [ingestStep]
  constructor
  · intro o ho
    rw [hist] at ho
    exact mem_evictStale_fresh now W (s.history ++ [⟨now, l⟩]) hsort2 o ho
  · refine ⟨List.takeWhile (staleAt now W) (s.history ++ [⟨now, l⟩]), ?_, ?_⟩
    · rw [hist, evictStale]
      exact (List.takeWhile_append_dropWhile (staleAt now W)
        (s.history ++ [⟨now, l⟩])).symm
    · intro o ho
      have hst := List.mem_takeWhile_imp ho
      simpa [staleAt] using hst

/-- C8 witness: a sorted two-entry history at `now = 5`, `W = 3`; the
entry at `ts = 0` is evicted, the rest of the window is fresh. -/
theorem C8_window_freshness_invariant_witness :
    (∀ o ∈ (ingestStep 3 (AggState.mk [⟨0, Label.Trusted⟩, ⟨3, Label.Untrusted⟩] false)
      5 Label.Trusted).history, 5 - o.ts ≤ 3) ∧
    (∃ dropped, (AggState.mk [⟨0, Label.Trusted⟩, ⟨3, Label.Untrusted⟩] false).history
        ++ [⟨5, Label.Trusted⟩] =
      dropped ++ (ingestStep 3 (AggState.mk [⟨0, Label.Trusted⟩, ⟨3, Label.Untrusted⟩] false)
        5 Label.Trusted).history ∧
      ∀ o ∈ dropped, 5 - o.ts > 3) :=
  C8_window_freshness_invariant 3
    (AggState.mk [⟨0, Label.Trusted⟩, ⟨3, Label.Untrusted⟩] false) 5 Label.Trusted
    (by decide) (by decide)

/-- C9: whenever a running recognizer has its thread handle (which
`start_recognition` guarantees), `stop_recognition` succeeds, releases
the camera at most once, a second call succeeds and changes nothing (no
second release, no error), and calling it while not running — in
particular before any start — is a no-op. -/
theorem C9_stop_idempotent (s : RecState)
    (hinv : s.running = true → s.thread = some ()) :
    ∃ s2, stop_recognition s = some s2 ∧
      stop_recognition s2 = some s2 ∧
      s2.cameraReleases ≤ s.cameraReleases + 1 ∧
      (s.running = false → s2 = s) := by
  cases hr : s.running with
  | false =>
    refine ⟨s, ?_, ?_, Nat.le_succ _, fun _ => rfl⟩ <;>
      simp [stop_recognition, hr]
  | true =>
    have ht : s.thread = some () := hinv hr
    refine ⟨⟨false, s.thread, s.cameraReleases + 1⟩, ?_, ?_, le_rfl, ?_⟩
    · simp [stop_recognition, hr, ht]
    · simp [stop_recognition]
    · intro hc
      simp at hc

/-- C9 witness: stopping a never-started recognizer (`recInit`) is a safe
no-op, and stopping it again still is. -/
theorem C9_stop_idempotent_witness :
    ∃ s2, stop_recognition recInit = some s2 ∧
      stop_recognition s2 = some s2 ∧
      s2.cameraReleases ≤ recInit.cameraReleases + 1 ∧
      (recInit.running = false → s2 = recInit) :=
  C9_stop_idempotent recInit (by decide)

/-- C10: a blank utterance (empty or whitespace-only) makes `chat` return
the fixed string "Please provide a valid input." with the state — both
the escalation level and the verification status — unchanged; the result
does not depend on the generator `gen`, which is therefore never
invoked. -/
theorem C10_blank_input_fixed_reply (s : GemmaState) (input : String)
    (gen : PromptTier → Option String) (hws : strip input = "") :
    chat s input gen = (s, ChatResult.fixedReply "Please provide a valid input.") := by
  simp [chat, hws]

/-- C10 witness: a whitespace-only utterance at a concrete state and
generator. -/
theorem C10_blank_input_fixed_reply_witness :
    chat ⟨false, 2⟩ "  " okGen =
      (⟨false, 2⟩, ChatResult.fixedReply "Please provide a valid input.") :=
  C10_blank_input_fixed_reply ⟨false, 2⟩ "  " okGen (by decide)

end GuardAgent
